import Mathlib

/-!
Verification of the QUIC transport-abstraction layer (`src/h3/src/quic.rs`).

The module defines capability traits (`Connection`, `OpenStreams`, `SendStream`,
`RecvStream`, `BidiStream`), an error-classification trait `Error`, and the
concrete `SendDatagramError` enum.  The concrete code (the enum, its
`Display`/`Error` impls, and the boxing conversion) is embedded directly.
The polling contracts of the traits have no implementation in the sources at
hand, so compliant model implementations are built from the specification's
words and the claims are settled against those models.
-/

namespace Quic

/-- A poll result: either an immediately available value or a suspension
(registration for wake-up), mirroring `std::task::Poll`. -/
inductive Poll (α : Type) where
  | Ready (a : α)
  | Pending
deriving DecidableEq, Repr

/-- A type-erased transport error object (`Box<dyn Error>`): it answers
`is_timeout()`, `err_code()`, and renders a message (`Display`). -/
structure BoxedError where
  is_timeout : Bool
  err_code : Option Nat
  msg : String
deriving DecidableEq, Repr

/-- The `Error` capability trait (quic.rs lines 19-25): whether the error is a
transport timeout, and the optional QUIC error code from a connection close or
stream stop; `std::error::Error` additionally supplies a `Display` rendering. -/
class Error (α : Type) where
  is_timeout : α → Bool
  err_code : α → Option Nat
  display : α → String

/-- The conversion `impl From<E> for Box<dyn Error>` (quic.rs lines 27-31):
`Box::new(err)` erases the type; every query on the boxed object dispatches to
the original value's implementation. -/
def boxError {α : Type} [Error α] (e : α) : BoxedError :=
  { is_timeout := Error.is_timeout e
    err_code := Error.err_code e
    msg := Error.display e }

/-- The `SendDatagramError` enum (quic.rs lines 34-44): the closed set of
outcomes of a failed `send_datagram` attempt. -/
inductive SendDatagramError where
  | UnsupportedByPeer
  | Disabled
  | TooLarge
  | ConnectionLost (err : BoxedError)
deriving DecidableEq, Repr

/-- `impl fmt::Display for SendDatagramError` (quic.rs lines 46-55): a fixed
string per variant; the `ConnectionLost` arm ignores the wrapped error. -/
def SendDatagramError.display : SendDatagramError → String
  | .UnsupportedByPeer => "datagrams not supported by peer"
  | .Disabled => "datagram support disabled"
  | .TooLarge => "datagram too large"
  | .ConnectionLost _ => "connection lost"

/-- `SendDatagramError::is_timeout` (quic.rs lines 60-62): always `false`. -/
def SendDatagramError.is_timeout (_ : SendDatagramError) : Bool := false

/-- `SendDatagramError::err_code` (quic.rs lines 64-69): delegates to the
wrapped error for `ConnectionLost`, `None` otherwise. -/
def SendDatagramError.err_code : SendDatagramError → Option Nat
  | .ConnectionLost err => err.err_code
  | _ => none

/-- `impl Error for SendDatagramError` (quic.rs lines 59-70). -/
instance : Error SendDatagramError where
  is_timeout := SendDatagramError.is_timeout
  err_code := SendDatagramError.err_code
  display := SendDatagramError.display

/-- Modelled from the spec: the receive half of a stream (the trait
`RecvStream`, quic.rs lines 189-209, has no implementation in the sources at
hand).  `queued` holds the chunks buffered for delivery, `finished` records
that the peer has finished its send half, and `stop_code` records a
`stop_sending` request. -/
structure RecvStreamModel where
  queued : List (List Nat)
  stop_code : Option Nat
  finished : Bool
deriving DecidableEq, Repr

/-- Modelled from the spec: `poll_data` yields the next available chunk,
suspends if none is currently available, or signals permanent end-of-stream
(`Ready (ok none)`) when the peer has finished its send half and all buffered
data has been delivered. -/
def RecvStreamModel.poll_data (s : RecvStreamModel) :
    Poll (Except BoxedError (Option (List Nat))) × RecvStreamModel :=
  match s.queued with
  | chunk :: rest => (Poll.Ready (Except.ok (some chunk)), { s with queued := rest })
  | [] =>
    if s.finished = true then (Poll.Ready (Except.ok none), s)
    else (Poll.Pending, s)

/-- `n + 1` successive `poll_data` calls, threading the stream state; the
result of the last call. -/
def RecvStreamModel.pollIter :
    Nat → RecvStreamModel → Poll (Except BoxedError (Option (List Nat))) × RecvStreamModel
  | 0, s => s.poll_data
  | Nat.succ n, s => RecvStreamModel.pollIter n (s.poll_data).2

/-- Modelled from the spec: `stop_sending` is an immediate, non-suspending
request carrying an application error code. -/
def RecvStreamModel.stop_sending (s : RecvStreamModel) (code : Nat) : RecvStreamModel :=
  { s with stop_code := some code }

/-- Modelled from the spec: the caller's write-buffer cursor (`Buf`): a byte
source consumed from the front as bytes are accepted. -/
structure BufModel where
  remaining : List Nat
deriving DecidableEq, Repr

/-- Advancing the cursor consumes `n` bytes from the front. -/
def BufModel.advance (b : BufModel) (n : Nat) : BufModel :=
  ⟨b.remaining.drop n⟩

/-- Modelled from the spec: the send half of a stream (the trait `SendStream`,
quic.rs lines 161-186, has no implementation in the sources at hand).
`window` is the flow-control capacity currently available; `reset_code`
records an abrupt reset. -/
structure SendStreamModel where
  window : Nat
  reset_code : Option Nat
deriving DecidableEq, Repr

/-- Modelled from the spec: `poll_send` writes as much of `buf` as the current
flow-control window allows, advances `buf` by exactly the bytes accepted and
returns that count; it suspends instead of reporting zero bytes. -/
def SendStreamModel.poll_send (s : SendStreamModel) (buf : BufModel) :
    Poll (Nat × SendStreamModel × BufModel) :=
  if min s.window buf.remaining.length = 0 then Poll.Pending
  else
    Poll.Ready (min s.window buf.remaining.length,
      { s with window := s.window - min s.window buf.remaining.length },
      buf.advance (min s.window buf.remaining.length))

/-- Modelled from the spec: `reset` is an immediate, non-suspending abrupt
cancellation of the send half carrying an application error code. -/
def SendStreamModel.reset (s : SendStreamModel) (code : Nat) : SendStreamModel :=
  { s with reset_code := some code }

/-- Modelled from the spec: a connection (the trait `Connection`, quic.rs
lines 73-131, has no implementation in the sources at hand): queues of
incoming uni/bidirectional streams and datagrams, datagram configuration, an
optional fatal transport error, and whether `close` has been invoked. -/
structure ConnectionModel where
  incomingUni : List RecvStreamModel
  incomingBidi : List (SendStreamModel × RecvStreamModel)
  incomingDatagrams : List (List Nat)
  outgoingDatagrams : List (List Nat)
  peerSupportsDatagrams : Bool
  datagramsEnabled : Bool
  maxDatagramSize : Nat
  lostError : Option BoxedError
  closed : Bool
deriving DecidableEq, Repr

/-- Modelled from the spec: `close(code, reason)` immediately and unilaterally
terminates the session; it never suspends. -/
def ConnectionModel.close (c : ConnectionModel) (_code : Nat) (_reason : List Nat) :
    ConnectionModel :=
  { c with closed := true }

/-- Modelled from the spec: `poll_accept_recv` yields the next incoming
unidirectional stream, suspends if none is ready, signals the clean terminal
state (`Ready (ok none)`) once the connection is closing or closed, and uses
the error path only for transport failures. -/
def ConnectionModel.poll_accept_recv (c : ConnectionModel) :
    Poll (Except BoxedError (Option RecvStreamModel)) × ConnectionModel :=
  if c.closed = true then (Poll.Ready (Except.ok none), c)
  else
    match c.lostError with
    | some e => (Poll.Ready (Except.error e), c)
    | none =>
      match c.incomingUni with
      | st :: rest => (Poll.Ready (Except.ok (some st)), { c with incomingUni := rest })
      | [] => (Poll.Pending, c)

/-- Modelled from the spec: `poll_accept_bidi`, symmetric to
`poll_accept_recv` for incoming bidirectional streams. -/
def ConnectionModel.poll_accept_bidi (c : ConnectionModel) :
    Poll (Except BoxedError (Option (SendStreamModel × RecvStreamModel))) × ConnectionModel :=
  if c.closed = true then (Poll.Ready (Except.ok none), c)
  else
    match c.lostError with
    | some e => (Poll.Ready (Except.error e), c)
    | none =>
      match c.incomingBidi with
      | st :: rest => (Poll.Ready (Except.ok (some st)), { c with incomingBidi := rest })
      | [] => (Poll.Pending, c)

/-- Modelled from the spec: `poll_accept_datagram` yields the next incoming
datagram, suspends if none is ready, or signals the clean terminal state once
the connection is closing or closed. -/
def ConnectionModel.poll_accept_datagram (c : ConnectionModel) :
    Poll (Except BoxedError (Option (List Nat))) × ConnectionModel :=
  if c.closed = true then (Poll.Ready (Except.ok none), c)
  else
    match c.lostError with
    | some e => (Poll.Ready (Except.error e), c)
    | none =>
      match c.incomingDatagrams with
      | d :: rest => (Poll.Ready (Except.ok (some d)), { c with incomingDatagrams := rest })
      | [] => (Poll.Pending, c)

/-- Modelled from the spec: `send_datagram` is a non-suspending, immediate
attempt to queue an unreliable message; it returns success or one of the
`SendDatagramError` variants in a single call. -/
def ConnectionModel.send_datagram (c : ConnectionModel) (data : List Nat) :
    Except SendDatagramError ConnectionModel :=
  if c.peerSupportsDatagrams = false then Except.error SendDatagramError.UnsupportedByPeer
  else if c.datagramsEnabled = false then Except.error SendDatagramError.Disabled
  else if c.maxDatagramSize < data.length then Except.error SendDatagramError.TooLarge
  else
    match c.lostError with
    | some e => Except.error (SendDatagramError.ConnectionLost e)
    | none => Except.ok { c with outgoingDatagrams := c.outgoingDatagrams ++ [data] }

/-- Signature of the `OpenStreams` trait (quic.rs lines 134-142): its three
associated stream types. -/
structure OpenStreamsSig where
  BidiStream : Type
  SendStream : Type
  RecvStream : Type

/-- Signature of the `Connection` trait (quic.rs lines 73-87): its associated
stream types, and its `OpenStreams` associated type together with the bound
`OpenStreams<SendStream = Self::SendStream, RecvStream = Self::RecvStream,
BidiStream = Self::BidiStream>`; the bound's equality constraints are the
three proof fields.  `opener()` (quic.rs line 118) returns a value of the
`openerSig` signature. -/
structure ConnectionSig where
  BidiStream : Type
  SendStream : Type
  RecvStream : Type
  openerSig : OpenStreamsSig
  opener_send_eq : openerSig.SendStream = SendStream
  opener_recv_eq : openerSig.RecvStream = RecvStream
  opener_bidi_eq : openerSig.BidiStream = BidiStream

/-- Helper: exhaustiveness of the four `SendDatagramError` constructors. -/
theorem SendDatagramError.casesAux (e : SendDatagramError) :
    e = SendDatagramError.UnsupportedByPeer ∨ e = SendDatagramError.Disabled ∨
      e = SendDatagramError.TooLarge ∨ ∃ b, e = SendDatagramError.ConnectionLost b := by
  cases e <;> simp

/-- Helper: a `poll_data` call that yields end-of-stream leaves the stream
state unchanged (its buffer is empty and the peer has finished). -/
theorem RecvStreamModel.eos_fixed (s : RecvStreamModel)
    (h : (s.poll_data).1 = Poll.Ready (Except.ok none)) :
    s.poll_data = (Poll.Ready (Except.ok none), s) := by
  cases hq : s.queued with
  | cons chunk rest => simp [RecvStreamModel.poll_data, hq] at h
  | nil =>
    cases hf : s.finished with
    | false => simp [RecvStreamModel.poll_data, hq, hf] at h
    | true => simp [RecvStreamModel.poll_data, hq, hf]

/-- C1: for every `SendDatagramError` value, `err_code()` delegates to the
wrapped transport error's code for `ConnectionLost` and returns `none` for
`UnsupportedByPeer`, `Disabled` and `TooLarge`. -/
theorem sendDatagramError_err_code_delegates :
    (∀ b : BoxedError, (SendDatagramError.ConnectionLost b).err_code = b.err_code) ∧
      SendDatagramError.err_code SendDatagramError.UnsupportedByPeer = none ∧
      SendDatagramError.err_code SendDatagramError.Disabled = none ∧
      SendDatagramError.err_code SendDatagramError.TooLarge = none :=
  ⟨fun _ => rfl, rfl, rfl, rfl⟩

/-- C2: `is_timeout()` is `false` for every `SendDatagramError`, including a
`ConnectionLost` wrapping a transport error that itself reports a timeout. -/
theorem sendDatagramError_never_timeout :
    (∀ e : SendDatagramError, SendDatagramError.is_timeout e = false) ∧
      ∀ b : BoxedError, b.is_timeout = true →
        (SendDatagramError.ConnectionLost b).is_timeout = false :=
  ⟨fun _ => rfl, fun _ _ => rfl⟩

/-- C2 witness: a wrapped error that does report a timeout still yields
`is_timeout = false` at the datagram-error level. -/
theorem sendDatagramError_never_timeout_witness :
    (SendDatagramError.ConnectionLost ⟨true, some 7, "idle timeout"⟩).is_timeout = false :=
  sendDatagramError_never_timeout.2 ⟨true, some 7, "idle timeout"⟩ rfl

/-- C3: once a `poll_data` call yields end-of-stream (`Ready (ok none)`),
every later `poll_data` call on the resulting stream state also yields
end-of-stream: the signal is permanent. -/
theorem recv_eos_permanent (s : RecvStreamModel) (n : Nat)
    (h : (s.poll_data).1 = Poll.Ready (Except.ok none)) :
    (RecvStreamModel.pollIter n s).1 = Poll.Ready (Except.ok none) := by
  induction n generalizing s with
  | zero => simpa [RecvStreamModel.pollIter] using h
  | succ n ih =>
    have hfix := RecvStreamModel.eos_fixed s h
    have h2 : (s.poll_data).2 = s := by rw [hfix]
    show (RecvStreamModel.pollIter n (s.poll_data).2).1 = Poll.Ready (Except.ok none)
    rw [h2]
    exact ih s h

/-- C3 witness: a drained, finished stream yields end-of-stream now and still
does after five further polls. -/
theorem recv_eos_permanent_witness :
    (RecvStreamModel.pollIter 5 ⟨[], none, true⟩).1 = Poll.Ready (Except.ok none) :=
  recv_eos_permanent ⟨[], none, true⟩ 5 rfl

/-- C4: when `poll_send` resolves successfully with a count `n`, the buffer
has been advanced by exactly `n` bytes: the reported count equals the number
of bytes removed from the caller's buffer. -/
theorem send_conservation (s : SendStreamModel) (buf : BufModel) (n : Nat)
    (s' : SendStreamModel) (buf' : BufModel)
    (h : s.poll_send buf = Poll.Ready (n, s', buf')) :
    buf' = buf.advance n ∧ buf.remaining.length = n + buf'.remaining.length := by
  by_cases h0 : min s.window buf.remaining.length = 0
  · simp [SendStreamModel.poll_send, h0] at h
  · simp [SendStreamModel.poll_send, h0] at h
    obtain ⟨hn, _, hb⟩ := h
    subst hn
    subst hb
    refine ⟨rfl, ?_⟩
    simp only [BufModel.advance, List.length_drop]
    omega

/-- C4 witness: a window of 5 against a 3-byte buffer reports 3 bytes written
and consumes exactly those 3 bytes. -/
theorem send_conservation_witness :
    (⟨[]⟩ : BufModel) = BufModel.advance ⟨[1, 2, 3]⟩ 3 ∧
      ([1, 2, 3] : List Nat).length = 3 + ([] : List Nat).length :=
  send_conservation ⟨5, none⟩ ⟨[1, 2, 3]⟩ 3 ⟨2, none⟩ ⟨[]⟩ rfl

/-- C5: after `close`, each of `poll_accept_recv`, `poll_accept_bidi` and
`poll_accept_datagram` resolves immediately to the terminal "no more items"
value `Ready (ok none)` — the success path, distinct from the error path —
and leaves the state unchanged, so every subsequent accept call resolves the
same way rather than suspending. -/
theorem closed_accept_terminal (c : ConnectionModel) (code : Nat) (reason : List Nat) :
    (c.close code reason).poll_accept_recv =
        (Poll.Ready (Except.ok none), c.close code reason) ∧
      (c.close code reason).poll_accept_bidi =
        (Poll.Ready (Except.ok none), c.close code reason) ∧
      (c.close code reason).poll_accept_datagram =
        (Poll.Ready (Except.ok none), c.close code reason) := by
  refine ⟨?_, ?_, ?_⟩ <;>
    simp [ConnectionModel.close, ConnectionModel.poll_accept_recv,
      ConnectionModel.poll_accept_bidi, ConnectionModel.poll_accept_datagram]

/-- C6: `reset`, `stop_sending`, `close` and `send_datagram` are plain state
functions, not poll-typed: each completes in a single call, producing its
effect immediately with no suspension point, and `send_datagram` returns
either success or one of the four `SendDatagramError` variants. -/
theorem fire_and_forget_ops (c : ConnectionModel) (data : List Nat)
    (s : SendStreamModel) (r : RecvStreamModel)
    (code1 code2 code3 : Nat) (reason : List Nat) :
    ((∃ c', c.send_datagram data = Except.ok c') ∨
        ∃ e, c.send_datagram data = Except.error e ∧
          (e = SendDatagramError.UnsupportedByPeer ∨ e = SendDatagramError.Disabled ∨
            e = SendDatagramError.TooLarge ∨
            ∃ b, e = SendDatagramError.ConnectionLost b)) ∧
      (s.reset code1).reset_code = some code1 ∧
      (r.stop_sending code2).stop_code = some code2 ∧
      (c.close code3 reason).closed = true := by
  refine ⟨?_, rfl, rfl, rfl⟩
  cases hres : c.send_datagram data with
  | ok c' => exact Or.inl ⟨c', rfl⟩
  | error e => exact Or.inr ⟨e, rfl, SendDatagramError.casesAux e⟩

/-- C7: boxing a value of any type satisfying the `Error` capability
(`Box::new` in the `From` impl) preserves the classification surface: the
boxed object answers `is_timeout()` and `err_code()` exactly as the original
value does. -/
theorem boxError_preserves_classification {α : Type} [Error α] (e : α) :
    (boxError e).is_timeout = Error.is_timeout e ∧
      (boxError e).err_code = Error.err_code e :=
  ⟨rfl, rfl⟩

/-- C7 witness: boxing the concrete `SendDatagramError.TooLarge` preserves
both queries. -/
theorem boxError_preserves_classification_witness :
    (boxError SendDatagramError.TooLarge).is_timeout =
        Error.is_timeout SendDatagramError.TooLarge ∧
      (boxError SendDatagramError.TooLarge).err_code =
        Error.err_code SendDatagramError.TooLarge :=
  boxError_preserves_classification SendDatagramError.TooLarge

/-- C8: `SendDatagramError` is a closed set of exactly four variants: every
value is `UnsupportedByPeer`, `Disabled`, `TooLarge` or `ConnectionLost`
(wrapping a boxed transport error), and the variants are pairwise distinct. -/
theorem sendDatagramError_closed_set :
    (∀ e : SendDatagramError,
        e = SendDatagramError.UnsupportedByPeer ∨ e = SendDatagramError.Disabled ∨
          e = SendDatagramError.TooLarge ∨ ∃ b, e = SendDatagramError.ConnectionLost b) ∧
      SendDatagramError.UnsupportedByPeer ≠ SendDatagramError.Disabled ∧
      SendDatagramError.UnsupportedByPeer ≠ SendDatagramError.TooLarge ∧
      SendDatagramError.Disabled ≠ SendDatagramError.TooLarge ∧
      (∀ b : BoxedError,
        SendDatagramError.ConnectionLost b ≠ SendDatagramError.UnsupportedByPeer ∧
          SendDatagramError.ConnectionLost b ≠ SendDatagramError.Disabled ∧
          SendDatagramError.ConnectionLost b ≠ SendDatagramError.TooLarge) := by
  refine ⟨?_, by simp, by simp, by simp, fun b => ⟨by simp, by simp, by simp⟩⟩
  intro e
  cases e <;> simp

/-- C9: the `Display` rendering of each `SendDatagramError` variant is a fixed
string, and the `ConnectionLost` rendering discards the wrapped transport
error entirely (it does not depend on the wrapped error's message or code). -/
theorem sendDatagramError_display_fixed :
    SendDatagramError.display SendDatagramError.UnsupportedByPeer =
        "datagrams not supported by peer" ∧
      SendDatagramError.display SendDatagramError.Disabled = "datagram support disabled" ∧
      SendDatagramError.display SendDatagramError.TooLarge = "datagram too large" ∧
      (∀ b : BoxedError, (SendDatagramError.ConnectionLost b).display = "connection lost") ∧
      ∀ b b' : BoxedError,
        (SendDatagramError.ConnectionLost b).display =
          (SendDatagramError.ConnectionLost b').display :=
  ⟨rfl, rfl, rfl, fun _ => rfl, fun _ _ => rfl⟩

/-- C10: for every `Connection` signature, the `OpenStreams` bound forces the
opener's `SendStream`, `RecvStream` and `BidiStream` associated types to be
exactly the connection's own, so a stream obtained from `opener()` has exactly
the same type as one obtained from the connection itself. -/
theorem opener_types_identical (c : ConnectionSig) :
    c.openerSig.SendStream = c.SendStream ∧
      c.openerSig.RecvStream = c.RecvStream ∧
      c.openerSig.BidiStream = c.BidiStream :=
  ⟨c.opener_send_eq, c.opener_recv_eq, c.opener_bidi_eq⟩

end Quic
